import Mathlib

/-!
Verification of the PDF field-filling service (`src/main.py`).

Numeric values that the Python source handles as floats are modelled as
rationals (`ℚ`), so every definition is executable and the algebraic
contracts of the spec can be checked exactly.  Network and image-decoding
effects are modelled by explicit success flags (`ImageEnv`), and the
drawing canvas by a list of drawing operations; filesystem activity of the
overlay renderer is recorded as a list of create/remove events.
-/

namespace PDFFill

/-- Rectangle of a form field, top-left origin, y growing downward
(`FieldRect` in `main.py`). -/
structure FieldRect where
  x : ℚ
  y : ℚ
  width : ℚ
  height : ℚ
deriving DecidableEq, Repr

/-- One field-fill instruction (`FieldData` in `main.py`).  The page index
is an `Int`, as Python ints are unbounded and may be negative. -/
structure FieldData where
  field_name : String
  field_type : String
  field_page_num : Int
  field_rect : FieldRect
  field_answer : String
deriving DecidableEq, Repr

/-- `PDFFieldFiller.convert_anvil_coordinates`: translate a top-left-origin
y coordinate into PDF bottom-left-origin space. -/
def convert_anvil_coordinates (anvil_y page_height field_height : ℚ) : ℚ :=
  page_height - anvil_y - field_height

/-- Font size for a text field, from `create_overlay` lines 166-167:
`font_size = min(height * 0.6, 12); font_size = max(font_size, 8)`. -/
def text_font_size (height : ℚ) : ℚ :=
  let font_size := min (height * (3 / 5)) 12
  max font_size 8

/-- Python's `s.startswith(p)`, as a prefix test on the character lists. -/
def startswith (s p : String) : Bool :=
  p.data.isPrefixOf s.data

/-- The signature test of `create_overlay` line 126-127:
`field_type in ['signature', 'signatureDate'] or answer.startswith('http')`. -/
def is_signature_check (field_type answer : String) : Bool :=
  (field_type == "signature" || field_type == "signatureDate")
    || startswith answer "http"

/-- The guard of the image branch, `create_overlay` line 129:
`is_signature and isinstance(answer, str) and answer.startswith('http')`
(the `isinstance` test is always true, `field_answer` being a `str`). -/
def takes_image_branch (field_type answer : String) : Bool :=
  is_signature_check field_type answer && startswith answer "http"

/-- A drawing operation issued to the reportlab canvas. -/
inductive DrawOp where
  | setFont (font : String) (size : ℚ)
  | drawString (x y : ℚ) (text : String)
  | drawImage (path : String) (x y w h : ℚ)
deriving DecidableEq, Repr

/-- A filesystem event performed by the overlay renderer. -/
inductive FsEvent where
  | create (path : String)
  | remove (path : String)
deriving DecidableEq, Repr

/-- Success flags for the effectful steps inside the `try` block of the
image branch of `create_overlay`: `download_file`, `Image.open`, and
`can.drawImage` (each raises an exception when its flag is false). -/
structure ImageEnv where
  download_ok : Bool
  decode_ok : Bool
  draw_ok : Bool
deriving DecidableEq, Repr

/-- The scratch file name, `f"temp_sig_{datetime.now().timestamp()}.png"`,
as a function of the timestamp string. -/
def temp_img_path (ts : String) : String :=
  "temp_sig_" ++ ts ++ ".png"

/-- The result of `create_overlay`: the page size of the emitted
single-page overlay (the `pagesize` given to the canvas), the canvas
operations recorded on it, and the filesystem events performed. -/
structure OverlayResult where
  page_size : ℚ × ℚ
  ops : List DrawOp
  fs : List FsEvent
deriving DecidableEq, Repr

/-- `PDFFieldFiller.create_overlay` (lines 105-176).  Exceptions raised by
downloading, decoding or drawing the signature image are modelled by the
flags of `env`; every such exception is caught by the `except` clause, so
the function is total.  Cleanup of the scratch file (lines 154-156) sits
inside the `try` block, after `drawImage`, exactly as in the source. -/
def create_overlay (env : ImageEnv) (field_data : FieldData)
    (page_width page_height : ℚ) (ts : String) : OverlayResult :=
  let x := field_data.field_rect.x
  let anvil_y := field_data.field_rect.y
  let width := field_data.field_rect.width
  let height := field_data.field_rect.height
  let y := convert_anvil_coordinates anvil_y page_height height
  let field_type := field_data.field_type
  let answer := field_data.field_answer
  if takes_image_branch field_type answer then
    if !env.download_ok || !env.decode_ok then
      -- exception raised before the scratch file is written
      { page_size := (page_width, page_height),
        ops := [.setFont "Helvetica" 10,
                .drawString (x + 2) (y + height / 2) "[Signature Error]"],
        fs := [] }
    else
      let path := temp_img_path ts
      if env.draw_ok then
        { page_size := (page_width, page_height),
          ops := [.drawImage path (x + 2) (y + 2)
                    (width - 2 * 2) (height - 2 * 2)],
          fs := [.create path, .remove path] }
      else
        -- `can.drawImage` raises: control jumps to `except`, skipping the
        -- cleanup lines 154-156
        { page_size := (page_width, page_height),
          ops := [.setFont "Helvetica" 10,
                  .drawString (x + 2) (y + height / 2) "[Signature Error]"],
          fs := [.create path] }
  else
    let font_size := text_font_size height
    { page_size := (page_width, page_height),
      ops := [.setFont "Helvetica" font_size,
              .drawString (x + 3) (y + (height - font_size) / 2 + 2) answer],
      fs := [] }

/-- A scratch file is leaked when the renderer created it and never
removed it. -/
def leaks (r : OverlayResult) (p : String) : Prop :=
  FsEvent.create p ∈ r.fs ∧ FsEvent.remove p ∉ r.fs

/-- Modelled from the spec (claim C2's refinement side): a string is a
syntactically valid absolute URL when it has a nonempty scheme — a letter
followed by letters, digits, `+`, `-` or `.` — terminated by a colon. -/
def spec_validAbsoluteURL (s : String) : Bool :=
  let scheme := s.data.takeWhile (fun c => c != ':')
  decide (scheme.length < s.data.length) && decide (0 < scheme.length) &&
    (match scheme with
     | [] => false
     | c :: rest =>
        c.isAlpha && rest.all (fun d => d.isAlphanum || d == '+' || d == '-' || d == '.'))

/-- A page of the document: its media-box size, its original content
stream (opaque bytes), and the overlays merged onto it in merge order
(`page.merge_page` stacks each overlay on top of the previous content). -/
structure Page where
  width : ℚ
  height : ℚ
  content : String
  overlays : List OverlayResult
deriving DecidableEq, Repr

/-- The merge loop of `fill_pdf` lines 209-213: build each field's overlay
at the page's media-box dimensions and merge it onto the page, in the
order the fields were supplied. -/
def process_page (env : FieldData → ImageEnv) (ts : String) (page : Page)
    (flds : List FieldData) : Page :=
  { page with overlays :=
      page.overlays
        ++ flds.map (fun f => create_overlay (env f) f page.width page.height ts) }

/-- The page loop of `fill_pdf` lines 198-215.  `page_num` runs over the
source pages; `fields_data.filter (field_page_num == page_num)` is the
bucket `fields_by_page[page_num]` (the dict grouping preserves input order
within a page), and the test `page_num in fields_by_page` holds exactly
when that bucket is nonempty. -/
def fill_pages (env : FieldData → ImageEnv) (ts : String)
    (fields_data : List FieldData) : List Page → Int → List Page
  | [], _ => []
  | page :: rest, page_num =>
    let flds := fields_data.filter (fun f => f.field_page_num == page_num)
    (if flds.isEmpty then page else process_page env ts page flds)
      :: fill_pages env ts fields_data rest (page_num + 1)

/-- `PDFFieldFiller.fill_pdf` (lines 178-221), after the source document
has been decoded into its page list. -/
def fill_pdf (env : FieldData → ImageEnv) (ts : String)
    (pdf_pages : List Page) (fields_data : List FieldData) : List Page :=
  fill_pages env ts fields_data pdf_pages 0

/-- `SupabaseStorageClient.upload` (lines 68-82), as a function of the
storage service's response status: `raise` when the status is not in
`[200, 201]`, otherwise return normally. -/
def SupabaseStorageClient.upload (status_code : ℕ) : Except String Unit :=
  if status_code ∉ [200, 201] then Except.error "Upload failed"
  else Except.ok ()

/-- Modelled from the spec (claim C9's refinement side): a 2xx HTTP
status. -/
def spec_is2xx (n : ℕ) : Bool :=
  decide (200 ≤ n) && decide (n < 300)

/-- The storage client's base URL and key (`SupabaseStorageClient`). -/
structure SupabaseStorageClient where
  url : String
  key : String
deriving DecidableEq, Repr

/-- `SupabaseStorageClient.get_public_url` (lines 84-86): pure string
composition. -/
def SupabaseStorageClient.get_public_url (c : SupabaseStorageClient)
    (bucket path : String) : String :=
  c.url ++ "/storage/v1/object/public/" ++ bucket ++ "/" ++ path

/-- The stored object name built in `upload_to_supabase` line 226:
`f"filled_{timestamp}_{filename}"`. -/
def unique_filename (timestamp filename : String) : String :=
  "filled_" ++ timestamp ++ "_" ++ filename

/-- `PDFFieldFiller.upload_to_supabase` (lines 223-233): the object is
stored under the timestamped name and its public URL is returned. -/
def upload_to_supabase (c : SupabaseStorageClient)
    (timestamp filename bucket : String) : String :=
  c.get_public_url bucket (unique_filename timestamp filename)

/-- The response schema of the `/fill-pdf` endpoint (`FillPDFResponse`). -/
structure FillPDFResponse where
  success : Bool
  message : String
  pdf_url : Option String
  filename : Option String
deriving DecidableEq, Repr

/-- The success path of the `/fill-pdf` handler (lines 270-282): upload
the filled bytes under the timestamped name and answer with the public
URL and the caller-supplied filename. -/
def fill_pdf_endpoint (c : SupabaseStorageClient)
    (timestamp req_filename bucket : String) : FillPDFResponse :=
  { success := true, message := "PDF 填寫成功",
    pdf_url := some (upload_to_supabase c timestamp req_filename bucket),
    filename := some req_filename }

end PDFFill

namespace PDFFill

/-- Claim C1: for all inputs, the coordinate mapper returns
`pageHeight - topLeftY - elementHeight`, equivalently
`toPdfY + topLeftY + elementHeight = pageHeight`, with no error conditions
(the function is total). -/
theorem convert_anvil_coordinates_contract
    (topLeftY pageHeight elementHeight : ℚ) :
    convert_anvil_coordinates topLeftY pageHeight elementHeight
        = pageHeight - topLeftY - elementHeight
      ∧ convert_anvil_coordinates topLeftY pageHeight elementHeight
          + topLeftY + elementHeight = pageHeight := by
  constructor
  · rfl
  · simp only [convert_anvil_coordinates]
    ring

/-- Claim C7: the text font size always lies in `[8, 12]`, and equals
`height * 0.6` exactly when that value is already in `[8, 12]`. -/
theorem text_font_size_clamp (height : ℚ) :
    8 ≤ text_font_size height ∧ text_font_size height ≤ 12
      ∧ (8 ≤ height * (3 / 5) → height * (3 / 5) ≤ 12 →
          text_font_size height = height * (3 / 5)) := by
  refine ⟨le_max_right _ _, max_le (min_le_right _ _) (by norm_num), ?_⟩
  intro h8 h12
  simp only [text_font_size]
  rw [min_eq_left h12, max_eq_left h8]

/-- Witness for C7 at `height = 15`: `15 * 0.6 = 9` is in range and is the
chosen font size. -/
theorem text_font_size_clamp_witness :
    ((8 : ℚ) ≤ 15 * (3 / 5) ∧ 15 * (3 / 5) ≤ 12)
      ∧ text_font_size 15 = 15 * (3 / 5) :=
  ⟨⟨by norm_num, by norm_num⟩,
    (text_font_size_clamp 15).2.2 (by norm_num) (by norm_num)⟩

/-- Counterexample to claim C2 as stated: the string `"httpx"` is not a
syntactically valid absolute URL (it has no scheme terminator), yet the
renderer takes the image branch for it even with declared kind `"text"` —
classification is not equivalent to URL validity. -/
theorem image_branch_not_url_validity :
    takes_image_branch "text" "httpx" = true
      ∧ spec_validAbsoluteURL "httpx" = false := by
  constructor <;> rfl

/-- The image-branch guard reduces to the `startswith('http')` test alone. -/
lemma takes_image_branch_eq_startsWith (field_type answer : String) :
    takes_image_branch field_type answer = startswith answer "http" := by
  cases hb : startswith answer "http" <;>
    simp [takes_image_branch, is_signature_check, hb]

/-- Claim C2 amended: the renderer classifies a field as an image field if
and only if its content starts with the literal prefix `"http"`,
regardless of the declared kind. -/
theorem image_branch_iff_http_prefix (field_type answer : String) :
    takes_image_branch field_type answer = startswith answer "http" :=
  takes_image_branch_eq_startsWith field_type answer

/-- A concrete signature-field instruction used for witnesses. -/
def sig_field_example : FieldData :=
  { field_name := "sig", field_type := "signature", field_page_num := 0,
    field_rect := { x := 50, y := 100, width := 200, height := 40 },
    field_answer := "http://example.com/sig.png" }

/-- Claim C3 (code bug): when the download and decode of the signature
image succeed but drawing it fails (bad image data), the scratch file has
been created and the cleanup is skipped — the renderer leaks the
temporary file. -/
theorem create_overlay_leaks_on_draw_failure :
    leaks
      (create_overlay { download_ok := true, decode_ok := true, draw_ok := false }
        sig_field_example 612 792 "123")
      (temp_img_path "123") := by
  constructor <;> decide

/-- Claim C6: if fetching or decoding the signature image fails, the
renderer catches the exception and instead draws the literal label
`"[Signature Error]"` in Helvetica at size 10, at `x + 2` and vertical
mid-height of the field rectangle, creating no scratch file; the function
returns normally. -/
theorem create_overlay_signature_error_label (env : ImageEnv)
    (fd : FieldData) (w h : ℚ) (ts : String)
    (hbranch : startswith fd.field_answer "http" = true)
    (hfail : env.download_ok = false ∨ env.decode_ok = false) :
    (create_overlay env fd w h ts).ops
        = [.setFont "Helvetica" 10,
           .drawString (fd.field_rect.x + 2)
             (convert_anvil_coordinates fd.field_rect.y h fd.field_rect.height
               + fd.field_rect.height / 2)
             "[Signature Error]"]
      ∧ (create_overlay env fd w h ts).fs = [] := by
  have hb : takes_image_branch fd.field_type fd.field_answer = true := by
    rw [takes_image_branch_eq_startsWith]; exact hbranch
  rcases hfail with hf | hf <;>
    simp [create_overlay, hb, hf]

/-- Witness for C6 at a concrete field with a failing download. -/
theorem create_overlay_signature_error_label_witness :
    (startswith sig_field_example.field_answer "http" = true)
      ∧ (create_overlay { download_ok := false, decode_ok := true, draw_ok := true }
            sig_field_example 612 792 "t").ops
          = [.setFont "Helvetica" 10,
             .drawString (sig_field_example.field_rect.x + 2)
               (convert_anvil_coordinates sig_field_example.field_rect.y 792
                   sig_field_example.field_rect.height
                 + sig_field_example.field_rect.height / 2)
               "[Signature Error]"] :=
  ⟨by decide,
    (create_overlay_signature_error_label
      { download_ok := false, decode_ok := true, draw_ok := true }
      sig_field_example 612 792 "t" (by decide) (Or.inl rfl)).1⟩

/-- The page loop emits exactly one output page per source page. -/
lemma fill_pages_length (env : FieldData → ImageEnv) (ts : String)
    (fields_data : List FieldData) :
    ∀ (pages : List Page) (n : Int),
      (fill_pages env ts fields_data pages n).length = pages.length
  | [], _ => rfl
  | page :: rest, n => by
      simp [fill_pages, fill_pages_length env ts fields_data rest (n + 1)]

/-- Claim C4: for every input document and instruction list, the output
document has the same page count as the source document. -/
theorem fill_pdf_preserves_page_count (env : FieldData → ImageEnv)
    (ts : String) (pages : List Page) (fields_data : List FieldData) :
    (fill_pdf env ts pages fields_data).length = pages.length :=
  fill_pages_length env ts fields_data pages 0

/-- When no field targets position `i` of the remaining page list, the
page loop passes that page through unchanged. -/
lemma fill_pages_getElem_eq (env : FieldData → ImageEnv) (ts : String)
    (fields_data : List FieldData) :
    ∀ (pages : List Page) (n : Int) (i : ℕ),
      (fields_data.filter
          (fun f => f.field_page_num == n + (i : Int))).isEmpty = true →
      (fill_pages env ts fields_data pages n)[i]? = pages[i]?
  | [], _, _, _ => by simp [fill_pages]
  | page :: rest, n, 0, h => by
      simp only [Nat.cast_zero, add_zero] at h
      simp [fill_pages, h]
  | page :: rest, n, i + 1, h => by
      have e : n + (((i : ℕ) + 1 : ℕ) : Int) = (n + 1) + (i : Int) := by
        push_cast
        ring
      rw [e] at h
      simp only [fill_pages, List.getElem?_cons_succ]
      exact fill_pages_getElem_eq env ts fields_data rest (n + 1) i h

/-- Claim C5: a source page targeted by no instruction appears unchanged,
at the same position, in the output document. -/
theorem fill_pdf_untouched_page (env : FieldData → ImageEnv) (ts : String)
    (pages : List Page) (fields_data : List FieldData) (i : ℕ)
    (h : (fields_data.filter
        (fun f => f.field_page_num == (i : Int))).isEmpty = true) :
    (fill_pdf env ts pages fields_data)[i]? = pages[i]? := by
  have h0 : (fields_data.filter
      (fun f => f.field_page_num == (0 : Int) + (i : Int))).isEmpty = true := by
    simpa using h
  simpa [fill_pdf] using fill_pages_getElem_eq env ts fields_data pages 0 i h0

/-- A concrete text-field instruction targeting page 0. -/
def txt_field_example : FieldData :=
  { field_name := "name", field_type := "text", field_page_num := 0,
    field_rect := { x := 50, y := 100, width := 200, height := 20 },
    field_answer := "Jane Doe" }

/-- A concrete US-letter page. -/
def page_example : Page :=
  { width := 612, height := 792, content := "page-content", overlays := [] }

/-- Witness for C5: in a two-page document with one field on page 0,
page 1 of the output is the untouched source page. -/
theorem fill_pdf_untouched_page_witness :
    (([txt_field_example].filter
        (fun f => f.field_page_num == ((1 : ℕ) : Int))).isEmpty = true)
      ∧ (fill_pdf (fun _ => { download_ok := true, decode_ok := true, draw_ok := true })
            "t" [page_example, page_example] [txt_field_example])[1]?
          = [page_example, page_example][1]? :=
  ⟨by decide,
    fill_pdf_untouched_page
      (fun _ => { download_ok := true, decode_ok := true, draw_ok := true })
      "t" [page_example, page_example] [txt_field_example] 1 (by decide)⟩

/-- Removing a list element on which the predicate is false leaves the
filtered list unchanged. -/
lemma filter_eraseIdx_of_false {α : Type} (p : α → Bool) :
    ∀ (l : List α) (j : ℕ) (a : α), l[j]? = some a → p a = false →
      l.filter p = (l.eraseIdx j).filter p
  | [], j, a, hj, _ => by simp at hj
  | x :: xs, 0, a, hj, hp => by
      simp only [List.getElem?_cons_zero, Option.some.injEq] at hj
      subst hj
      simp [List.filter_cons, hp]
  | x :: xs, j + 1, a, hj, hp => by
      simp only [List.getElem?_cons_succ] at hj
      have ih := filter_eraseIdx_of_false p xs j a hj hp
      simp [List.eraseIdx_cons_succ, List.filter_cons, ih]

/-- The page loop only consults the instruction list through its
per-page-index buckets over the range of page indices it visits. -/
lemma fill_pages_congr (env : FieldData → ImageEnv) (ts : String)
    (fields1 fields2 : List FieldData) :
    ∀ (pages : List Page) (n : Int),
      (∀ m : Int, n ≤ m → m < n + (pages.length : Int) →
        fields1.filter (fun f => f.field_page_num == m)
          = fields2.filter (fun f => f.field_page_num == m)) →
      fill_pages env ts fields1 pages n = fill_pages env ts fields2 pages n
  | [], _, _ => rfl
  | page :: rest, n, h => by
      have hn : fields1.filter (fun f => f.field_page_num == n)
          = fields2.filter (fun f => f.field_page_num == n) := by
        refine h n le_rfl ?_
        simp only [List.length_cons]
        push_cast
        omega
      have h' : ∀ m : Int, n + 1 ≤ m → m < (n + 1) + (rest.length : Int) →
          fields1.filter (fun f => f.field_page_num == m)
            = fields2.filter (fun f => f.field_page_num == m) := by
        intro m h1 h2
        refine h m (by omega) ?_
        simp only [List.length_cons]
        push_cast
        omega
      have ih := fill_pages_congr env ts fields1 fields2 rest (n + 1) h'
      simp only [fill_pages, hn, ih]

/-- Claim C8: an instruction whose page index is not a valid zero-based
page index (negative, or at least the page count) is silently dropped —
the output equals the result of running fill with it removed. -/
theorem fill_pdf_drops_out_of_range (env : FieldData → ImageEnv)
    (ts : String) (pages : List Page) (fields_data : List FieldData)
    (j : ℕ) (f : FieldData) (hj : fields_data[j]? = some f)
    (hout : f.field_page_num < 0 ∨ (pages.length : Int) ≤ f.field_page_num) :
    fill_pdf env ts pages fields_data
      = fill_pdf env ts pages (fields_data.eraseIdx j) := by
  unfold fill_pdf
  apply fill_pages_congr
  intro m h0 hm
  apply filter_eraseIdx_of_false _ _ j f hj
  have hne : f.field_page_num ≠ m := by
    rcases hout with h | h <;> omega
  simpa using hne

/-- A concrete instruction whose page index exceeds the page count. -/
def out_of_range_field_example : FieldData :=
  { field_name := "ghost", field_type := "text", field_page_num := 5,
    field_rect := { x := 0, y := 0, width := 10, height := 10 },
    field_answer := "x" }

/-- Witness for C8: on a one-page document, the instruction with page
index 5 changes nothing. -/
theorem fill_pdf_drops_out_of_range_witness :
    ([out_of_range_field_example][0]? = some out_of_range_field_example
        ∧ (([page_example].length : Int)
            ≤ out_of_range_field_example.field_page_num))
      ∧ fill_pdf (fun _ => { download_ok := true, decode_ok := true, draw_ok := true })
            "t" [page_example] [out_of_range_field_example]
          = fill_pdf (fun _ => { download_ok := true, decode_ok := true, draw_ok := true })
              "t" [page_example] ([out_of_range_field_example].eraseIdx 0) :=
  ⟨⟨rfl, by decide⟩,
    fill_pdf_drops_out_of_range
      (fun _ => { download_ok := true, decode_ok := true, draw_ok := true })
      "t" [page_example] [out_of_range_field_example] 0
      out_of_range_field_example rfl (Or.inr (by decide))⟩

/-- Counterexample to claim C9 as stated: status 202 is a 2xx response,
yet the upload raises. -/
theorem upload_fails_on_2xx_202 :
    spec_is2xx 202 = true
      ∧ SupabaseStorageClient.upload 202 = Except.error "Upload failed" := by
  constructor <;> rfl

/-- Claim C9 amended: the upload succeeds if and only if the storage
service answers with status 200 or 201; every other status (2xx
included) raises a storage error. -/
theorem upload_ok_iff_status_200_or_201 (status_code : ℕ) :
    SupabaseStorageClient.upload status_code = Except.ok ()
      ↔ (status_code = 200 ∨ status_code = 201) := by
  by_cases h : status_code = 200 ∨ status_code = 201 <;>
    simp [SupabaseStorageClient.upload, h]

/-- Claim C10: the handler answers with the caller-supplied filename
unchanged, while the stored object (and the returned URL) uses the
distinct timestamped name `filled_{timestamp}_{filename}`; the response's
filename field never equals the stored name. -/
theorem fill_pdf_endpoint_filename_contract (c : SupabaseStorageClient)
    (timestamp req_filename bucket : String) :
    (fill_pdf_endpoint c timestamp req_filename bucket).filename
        = some req_filename
      ∧ (fill_pdf_endpoint c timestamp req_filename bucket).pdf_url
          = some (c.get_public_url bucket
              (unique_filename timestamp req_filename))
      ∧ unique_filename timestamp req_filename ≠ req_filename
      ∧ (fill_pdf_endpoint c timestamp req_filename bucket).filename
          ≠ some (unique_filename timestamp req_filename) := by
  have hne : unique_filename timestamp req_filename ≠ req_filename := by
    intro h
    have hl := congrArg String.length h
    simp only [unique_filename, String.length_append] at hl
    have h7 : "filled_".length = 7 := by decide
    have h1 : "_".length = 1 := by decide
    rw [h7, h1] at hl
    omega
  refine ⟨rfl, rfl, hne, ?_⟩
  intro h
  simp only [fill_pdf_endpoint, Option.some.injEq] at h
  exact hne h.symm

end PDFFill
